import Mathlib

/-!
Verification development for the receipt-verification engine in
`receipt_verifier.py`.  The Python source is shallowly embedded below:
pure helpers become Lean functions, the mutable `ReceiptCache` becomes a
state-passing record, machine arithmetic is `Nat` with explicit `% 2 ^ w`,
Python `float` money values are modelled as `ℚ`, and fallible code returns
`Except`.  Python dicts are insertion-ordered association lists, matching
CPython's dict semantics that the source relies on (`next(iter(d))` is the
earliest-inserted key).
-/

/-! ### MD5 (hashlib.md5), needed by `RequestParams.fingerprint` and the
`qrraw` cache key in `ReceiptVerifier.verify_receipt`. -/

/-- Truncation to 32 bits. -/
def u32 (n : Nat) : Nat := n % 4294967296

/-- 32-bit wrapping addition. -/
def uAdd (a b : Nat) : Nat := u32 (a + b)

/-- 32-bit bitwise complement (for arguments below `2 ^ 32`). -/
def uNot (a : Nat) : Nat := Nat.xor a 4294967295

/-- 32-bit left rotation by `s` positions (`0 < s < 32` in every use). -/
def rotl (x s : Nat) : Nat := u32 (x * 2 ^ s) + x / 2 ^ (32 - s)

/-- The 64 MD5 round constants of RFC 1321. -/
def md5K : List Nat :=
  [0xd76aa478, 0xe8c7b756, 0x242070db, 0xc1bdceee,
   0xf57c0faf, 0x4787c62a, 0xa8304613, 0xfd469501,
   0x698098d8, 0x8b44f7af, 0xffff5bb1, 0x895cd7be,
   0x6b901122, 0xfd987193, 0xa679438e, 0x49b40821,
   0xf61e2562, 0xc040b340, 0x265e5a51, 0xe9b6c7aa,
   0xd62f105d, 0x02441453, 0xd8a1e681, 0xe7d3fbc8,
   0x21e1cde6, 0xc33707d6, 0xf4d50d87, 0x455a14ed,
   0xa9e3e905, 0xfcefa3f8, 0x676f02d9, 0x8d2a4c8a,
   0xfffa3942, 0x8771f681, 0x6d9d6122, 0xfde5380c,
   0xa4beea44, 0x4bdecfa9, 0xf6bb4b60, 0xbebfbc70,
   0x289b7ec6, 0xeaa127fa, 0xd4ef3085, 0x04881d05,
   0xd9d4d039, 0xe6db99e5, 0x1fa27cf8, 0xc4ac5665,
   0xf4292244, 0x432aff97, 0xab9423a7, 0xfc93a039,
   0x655b59c3, 0x8f0ccc92, 0xffeff47d, 0x85845dd1,
   0x6fa87e4f, 0xfe2ce6e0, 0xa3014314, 0x4e0811a1,
   0xf7537e82, 0xbd3af235, 0x2ad7d2bb, 0xeb86d391]

/-- The 64 MD5 per-round shift amounts of RFC 1321. -/
def md5S : List Nat :=
  [7, 12, 17, 22, 7, 12, 17, 22, 7, 12, 17, 22, 7, 12, 17, 22,
   5, 9, 14, 20, 5, 9, 14, 20, 5, 9, 14, 20, 5, 9, 14, 20,
   4, 11, 16, 23, 4, 11, 16, 23, 4, 11, 16, 23, 4, 11, 16, 23,
   6, 10, 15, 21, 6, 10, 15, 21, 6, 10, 15, 21, 6, 10, 15, 21]

/-- UTF-8 encoding of a single code point, as `str.encode()` produces. -/
def charUtf8 (c : Char) : List Nat :=
  let n := c.toNat
  if n < 128 then [n]
  else if n < 2048 then [192 + n / 64, 128 + n % 64]
  else if n < 65536 then [224 + n / 4096, 128 + n / 64 % 64, 128 + n % 64]
  else [240 + n / 262144, 128 + n / 4096 % 64, 128 + n / 64 % 64, 128 + n % 64]

/-- Byte sequence of `s.encode()` (UTF-8). -/
def utf8Bytes (s : String) : List Nat := (s.data.map charUtf8).flatten

/-- MD5 padding: a `0x80` byte, zeros to 56 mod 64, then the bit length as
a 64-bit little-endian quantity. -/
def md5Pad (msg : List Nat) : List Nat :=
  let L := msg.length
  let zeros := (119 - L % 64) % 64
  let lenBits := (8 * L) % 18446744073709551616
  msg ++ [128] ++ List.replicate zeros 0 ++
    (List.range 8).map (fun j => lenBits / 2 ^ (8 * j) % 256)

/-- Little-endian 32-bit word `g` of a 64-byte block. -/
def md5Word (block : List Nat) (g : Nat) : Nat :=
  block.getD (4 * g) 0 + 256 * block.getD (4 * g + 1) 0 +
    65536 * block.getD (4 * g + 2) 0 + 16777216 * block.getD (4 * g + 3) 0

/-- One of the 64 MD5 rounds applied to the running state `(a, b, c, d)`. -/
def md5Step (block : List Nat) (st : Nat × Nat × Nat × Nat) (i : Nat) :
    Nat × Nat × Nat × Nat :=
  let a := st.1
  let b := st.2.1
  let c := st.2.2.1
  let d := st.2.2.2
  let fg : Nat × Nat :=
    if i < 16 then (Nat.lor (Nat.land b c) (Nat.land (uNot b) d), i)
    else if i < 32 then (Nat.lor (Nat.land d b) (Nat.land (uNot d) c), (5 * i + 1) % 16)
    else if i < 48 then (Nat.xor b (Nat.xor c d), (3 * i + 5) % 16)
    else (Nat.xor c (Nat.lor b (uNot d)), (7 * i) % 16)
  let f := uAdd (uAdd (uAdd fg.1 a) (md5K.getD i 0)) (md5Word block fg.2)
  (d, uAdd b (rotl f (md5S.getD i 0)), b, c)

/-- Process one 64-byte block. -/
def md5Block (st : Nat × Nat × Nat × Nat) (block : List Nat) :
    Nat × Nat × Nat × Nat :=
  let r := (List.range 64).foldl (md5Step block) st
  (uAdd st.1 r.1, uAdd st.2.1 r.2.1, uAdd st.2.2.1 r.2.2.1, uAdd st.2.2.2 r.2.2.2)

/-- Split a byte list into 64-byte chunks (fuel-based structural recursion
so that proofs can evaluate it). -/
def chunksAux : Nat → List Nat → List (List Nat)
  | 0, _ => []
  | _, [] => []
  | fuel + 1, a :: t => (a :: t).take 64 :: chunksAux fuel ((a :: t).drop 64)

/-- Split a byte list into 64-byte chunks. -/
def chunk64 (l : List Nat) : List (List Nat) := chunksAux l.length l

/-- MD5 digest state after consuming the whole padded message. -/
def md5Digest (msg : List Nat) : Nat × Nat × Nat × Nat :=
  (chunk64 (md5Pad msg)).foldl md5Block (0x67452301, 0xefcdab89, 0x98badcfe, 0x10325476)

/-- Lower-case hex digit. -/
def hexDigit (n : Nat) : Char := if n < 10 then Char.ofNat (48 + n) else Char.ofNat (87 + n)

/-- Two lower-case hex digits of a byte. -/
def byteHex (b : Nat) : String := String.mk [hexDigit (b / 16), hexDigit (b % 16)]

/-- Little-endian hex rendering of a 32-bit word. -/
def wordHexLE (w : Nat) : String :=
  byteHex (w % 256) ++ byteHex (w / 256 % 256) ++ byteHex (w / 65536 % 256) ++
    byteHex (w / 16777216 % 256)

/-- Model of `hashlib.md5(s.encode()).hexdigest()`. -/
def md5Hex (s : String) : String :=
  let r := md5Digest (utf8Bytes s)
  wordHexLE r.1 ++ wordHexLE r.2.1 ++ wordHexLE r.2.2.1 ++ wordHexLE r.2.2.2

/-! ### Insertion-ordered association lists: the model of Python dicts. -/

/-- Lookup in an insertion-ordered association list (`d[k]` / `d.get(k)`). -/
def alGet {κ α : Type} [DecidableEq κ] : List (κ × α) → κ → Option α
  | [], _ => none
  | (k', v') :: t, k => if k' = k then some v' else alGet t k

/-- Assignment `d[k] = v` on an insertion-ordered association list: an
existing key keeps its position and gets the new value, a new key is
appended at the end, exactly as a CPython dict behaves. -/
def alSet {κ α : Type} [DecidableEq κ] : List (κ × α) → κ → α → List (κ × α)
  | [], k, v => [(k, v)]
  | (k', v') :: t, k, v => if k' = k then (k, v) :: t else (k', v') :: alSet t k v

/-! ### Dates: the slice of `datetime` the source uses. -/

/-- A parsed `datetime` value (what `datetime.strptime` returns). -/
structure DateTime6 where
  year : Nat
  month : Nat
  day : Nat
  hour : Nat
  minute : Nat
  second : Nat
deriving DecidableEq, Repr

/-- Zero-padded two-digit rendering. -/
def pad2 (n : Nat) : String := if n < 10 then "0" ++ toString n else toString n

/-- Zero-padded four-digit rendering. -/
def pad4 (n : Nat) : String :=
  if n < 10 then "000" ++ toString n
  else if n < 100 then "00" ++ toString n
  else if n < 1000 then "0" ++ toString n
  else toString n

/-- Model of `dt.strftime('%H:%M:%S')`. -/
def fmtHMS (d : DateTime6) : String :=
  pad2 d.hour ++ ":" ++ pad2 d.minute ++ ":" ++ pad2 d.second

/-- Model of `dt.strftime('%Y-%m-%d')`. -/
def fmtYMD (d : DateTime6) : String :=
  pad4 d.year ++ "-" ++ pad2 d.month ++ "-" ++ pad2 d.day

/-- Gregorian leap-year test. -/
def isLeap (y : Nat) : Bool := y % 4 = 0 && (y % 100 ≠ 0 || y % 400 = 0)

/-- Days in a month. -/
def daysInMonth (y m : Nat) : Nat :=
  if m = 2 then (if isLeap y then 29 else 28)
  else if m = 4 || m = 6 || m = 9 || m = 11 then 30
  else 31

/-- Numeric value of two decimal digit characters, if both are digits. -/
def digit2 (a b : Char) : Option Nat :=
  if a.isDigit && b.isDigit then some ((a.toNat - 48) * 10 + (b.toNat - 48)) else none

/-- Numeric value of four decimal digit characters, if all are digits. -/
def digit4 (a b c d : Char) : Option Nat :=
  match digit2 a b, digit2 c d with
  | some hi, some lo => some (hi * 100 + lo)
  | _, _ => none

/-- Model of `datetime.strptime(s, '%Y-%m-%dT%H:%M:%S')`: `none` is the
`ValueError` case.  Fields are taken at their zero-padded widths and
validated against calendar ranges (Python's `%S` admits leap seconds up
to 61). -/
def strptimeDateTime (str : String) : Option DateTime6 :=
  match str.data with
  | [y1, y2, y3, y4, a1, m1, m2, a2, d1, d2, tt, h1, h2, b1, i1, i2, b2, s1, s2] =>
    if a1 = '-' && a2 = '-' && tt = 'T' && b1 = ':' && b2 = ':' then
      match digit4 y1 y2 y3 y4, digit2 m1 m2, digit2 d1 d2,
          digit2 h1 h2, digit2 i1 i2, digit2 s1 s2 with
      | some y, some mo, some da, some ho, some mi, some se =>
        if 1 ≤ mo && mo ≤ 12 && 1 ≤ da && da ≤ daysInMonth y mo &&
            ho ≤ 23 && mi ≤ 59 && se ≤ 61 then
          some ⟨y, mo, da, ho, mi, se⟩
        else none
      | _, _, _, _, _, _ => none
    else none
  | _ => none

/-! ### Python-level exceptions surfaced by the embedded code. -/

/-- The runtime errors the embedded fragments can raise. -/
inductive PyErr where
  | attributeError
  | stopIteration
deriving DecidableEq, Repr

/-! ### The service response (the decoded JSON body), restricted to the
keys the source reads.  Absent keys are `none`, matching `dict.get`. -/

/-- One entry of the `items` array of the response payload. -/
structure ApiItem where
  name : Option String := none
  price : Option Int := none
  quantity : Option ℚ := none
  sum : Option Int := none
deriving DecidableEq, Repr

/-- The nested `data.json` payload. -/
structure ApiJson where
  dateTime : Option String := none
  items : Option (List ApiItem) := none
  user : Option String := none
  retailPlaceAddress : Option String := none
  userInn : Option String := none
  retailPlace : Option String := none
  operator : Option String := none
  requestNumber : Option String := none
  shiftNumber : Option String := none
  fiscalDriveNumber : Option String := none
  fiscalDocumentNumber : Option String := none
  fiscalSign : Option String := none
  operationType : Option Int := none
  totalSum : Option Int := none
  cashTotalSum : Option Int := none
  ecashTotalSum : Option Int := none
  nds18 : Option Int := none
  nds : Option Int := none
  nds0 : Option Int := none
  ndsNo : Option Int := none
deriving DecidableEq, Repr

/-- The empty `{}` payload used as the `dict.get` default. -/
def ApiJson.empty : ApiJson := {}

/-- The `data` member of the response. -/
structure ApiData where
  json : Option ApiJson := none
  html : Option String := none
deriving DecidableEq, Repr

/-- The decoded JSON response body. -/
structure ApiResponse where
  code : Option Int := none
  error : Option String := none
  data : Option ApiData := none
deriving DecidableEq, Repr

/-! ### The `Receipt` dataclass and `ReceiptItem`. -/

/-- Single item in receipt (`ReceiptItem`). -/
structure ReceiptItem where
  name : String
  price : ℚ
  quantity : ℚ
  sum : ℚ
deriving DecidableEq, Repr

/-- Receipt data object (the `Receipt` dataclass).  Money fields are `ℚ`
(the source divides integer minor units by 100 in `float`; no claim below
depends on binary-float rounding).  `raw_response := none` stands for the
dataclass default `{}`. -/
structure Receipt where
  code : Int
  is_valid : Bool
  date_time : Option DateTime6 := none
  error_message : Option String := none
  organization : String := ""
  address : String := ""
  inn : String := ""
  date : String := ""
  time : String := ""
  place : String := ""
  cashier : String := ""
  receipt_number : String := ""
  shift_number : String := ""
  fiscal_drive_number : String := ""
  fiscal_document_number : String := ""
  fiscal_sign : String := ""
  operation_type : Int := 0
  items : List ReceiptItem := []
  total_sum : ℚ := 0
  cash_sum : ℚ := 0
  card_sum : ℚ := 0
  vat_20 : ℚ := 0
  vat_10 : ℚ := 0
  vat_0 : ℚ := 0
  vat_none : ℚ := 0
  raw_response : Option ApiResponse := none
  html_content : String := ""
deriving DecidableEq, Repr

/-- The canned error-message table of `Receipt.from_api_response`. -/
def error_messages : List (Int × String) :=
  [(0, "Invalid receipt"),
   (2, "Receipt data not yet available"),
   (3, "Request limit exceeded"),
   (4, "Wait before retrying"),
   (5, "Data not received")]

/-- Model of `Receipt.from_api_response`.  `now` stands for the
`datetime.now()` calls on the error branches.  The success branch mirrors
the source exactly: `date_time` is parsed (empty or unparsable falls to
`None`), and the constructor call then evaluates
`date_time.strftime(...)`, which raises `AttributeError` when `date_time`
is `None`; note the source does not pass `date_time` itself to the
constructor on success, so a successfully built receipt keeps the
dataclass default `None` there. -/
def Receipt.from_api_response (now : DateTime6) (response : ApiResponse) :
    Except PyErr Receipt :=
  let code := response.code.getD (-1)
  match alGet error_messages code with
  | some msg =>
    .ok { code := code, is_valid := false, error_message := some msg,
          date_time := some now }
  | none =>
    if code ≠ 1 then
      .ok { code := code, is_valid := false,
            error_message := some (response.error.getD "Unknown error"),
            date_time := some now }
    else
      let data := match response.data with
        | none => ApiJson.empty
        | some d => d.json.getD ApiJson.empty
      let date_str := data.dateTime.getD ""
      let date_time : Option DateTime6 :=
        if date_str = "" then none else strptimeDateTime date_str
      let items := (data.items.getD []).map (fun it =>
        ReceiptItem.mk (it.name.getD "") ((it.price.getD 0 : ℚ) / 100)
          (it.quantity.getD 0) ((it.sum.getD 0 : ℚ) / 100))
      match date_time with
      | none => .error .attributeError
      | some dt =>
        .ok { code := code
              is_valid := true
              organization := data.user.getD ""
              address := data.retailPlaceAddress.getD ""
              inn := data.userInn.getD ""
              time := fmtHMS dt
              date := fmtYMD dt
              place := data.retailPlace.getD ""
              cashier := data.operator.getD ""
              receipt_number := data.requestNumber.getD ""
              shift_number := data.shiftNumber.getD ""
              fiscal_drive_number := data.fiscalDriveNumber.getD ""
              fiscal_document_number := data.fiscalDocumentNumber.getD ""
              fiscal_sign := data.fiscalSign.getD ""
              operation_type := data.operationType.getD 0
              items := items
              total_sum := (data.totalSum.getD 0 : ℚ) / 100
              cash_sum := (data.cashTotalSum.getD 0 : ℚ) / 100
              card_sum := (data.ecashTotalSum.getD 0 : ℚ) / 100
              vat_20 := (data.nds18.getD 0 : ℚ) / 100
              vat_10 := (data.nds.getD 0 : ℚ) / 100
              vat_0 := (data.nds0.getD 0 : ℚ) / 100
              vat_none := (data.ndsNo.getD 0 : ℚ) / 100
              html_content := (match response.data with
                | none => ""
                | some d => d.html.getD "")
              raw_response := some response }

/-! ### `RequestParams` and the documented raw-QR payload format. -/

/-- Structured request parameters (the `RequestParams` dataclass). -/
structure RequestParams where
  fn : String
  fd : String
  fp : String
  t : String
  n : String
  s : String
  qr : String := "0"
deriving DecidableEq, Repr

/-- Model of `RequestParams.to_dict`. -/
def RequestParams.to_dict (p : RequestParams) : List (String × String) :=
  [("fn", p.fn), ("fd", p.fd), ("fp", p.fp), ("t", p.t),
   ("n", p.n), ("s", p.s), ("qr", p.qr)]

/-- Model of `RequestParams.fingerprint`:
`md5(f"{fn}_{fd}_{fp}_{t}".encode()).hexdigest()`. -/
def RequestParams.fingerprint (p : RequestParams) : String :=
  md5Hex (p.fn ++ "_" ++ p.fd ++ "_" ++ p.fp ++ "_" ++ p.t)

/-- The raw QR payload encoding of the fiscal fields, in the exact shape
documented in `RequestBuilder.from_qr_string`
(`t=...&s=...&fn=...&i=...&fp=...&n=...`, with `i` carrying the fiscal
document number `fd`). -/
def qrPayload (fn fd fp t n s : String) : String :=
  "t=" ++ t ++ "&s=" ++ s ++ "&fn=" ++ fn ++ "&i=" ++ fd ++ "&fp=" ++ fp ++ "&n=" ++ n

/-! ### `RetryHandler`. -/

/-- The `RetryHandler` configuration (`max_retries`, `base_delay`). -/
structure RetryHandler where
  max_retries : Nat
  base_delay : ℚ
deriving DecidableEq, Repr

/-- Model of `RetryHandler.should_retry`: `code in [2, 3, 4]`. -/
def RetryHandler.should_retry (_rh : RetryHandler) (code : Int) : Bool :=
  ([2, 3, 4] : List Int).contains code

/-- Model of `RetryHandler.get_delay`.  The Python `1.5` is the exact
rational `3 / 2` here; the source's floats are exact for every reachable
attempt index. -/
def RetryHandler.get_delay (rh : RetryHandler) (code : Int) (attempt : Nat) : ℚ :=
  if code = 3 then rh.base_delay * 2 ^ attempt
  else if code = 4 then rh.base_delay * 2
  else if code = 2 then rh.base_delay * (3 / 2 : ℚ) ^ attempt
  else rh.base_delay

/-! ### `ReceiptCache`. -/

/-- The `ReceiptCache` state: an insertion-ordered map plus counters. -/
structure ReceiptCache where
  cache : List (String × Receipt)
  max_size : Nat
  hits : Nat
  misses : Nat
deriving DecidableEq, Repr

/-- Model of `ReceiptCache.get`: returns the stored receipt (or `none`)
and the cache with the hit or miss counter bumped. -/
def ReceiptCache.get (c : ReceiptCache) (key : String) :
    Option Receipt × ReceiptCache :=
  match alGet c.cache key with
  | some r => (some r, { c with hits := c.hits + 1 })
  | none => (none, { c with misses := c.misses + 1 })

/-- Model of `ReceiptCache.put`: when the map is at capacity the
earliest-inserted entry (`next(iter(self.cache))`) is deleted first; on an
empty map that `next` raises `StopIteration`.  No validity check is
performed on the stored receipt. -/
def ReceiptCache.put (c : ReceiptCache) (key : String) (r : Receipt) :
    Except PyErr ReceiptCache :=
  if c.cache.length ≥ c.max_size then
    match c.cache with
    | [] => .error .stopIteration
    | _ :: rest => .ok { c with cache := alSet rest key r }
  else .ok { c with cache := alSet c.cache key r }

/-! ### `ReceiptVerifier.verify_receipt`.

The orchestration is embedded with explicit state:
* caller-visible Python dict objects live in a `Heap` (a list of dicts
  indexed by allocation order), so that the `request_data.copy()` in the
  source is observable as a fresh allocation and the frame property over
  the caller's dict is a real statement;
* the network is an oracle `net : Nat → NetResult` giving the outcome of
  the k-th `requests.post` of the call (`then raise_for_status` /
  `.json()` failures fall under the transport-error case the source
  catches as `RequestException`);
* the scoped QR-file attachment is tracked by `hasFiles` (truthiness of
  the `files` dict) and a trace of `FEvent`s: one `posted` event per
  network call, carrying whether the handles were already closed at that
  moment, and one `closed` event per execution of the `finally` block
  when files are present;
* `time.sleep` calls are recorded as the list of slept delays. -/

/-- A heap of Python dict objects, indexed by allocation order. -/
abbrev Heap : Type := List (List (String × String))

/-- Write `d[key] = v` on the heap object at index `ref`. -/
def heapWrite (h : Heap) (ref : Nat) (key v : String) : Heap :=
  List.set h ref (alSet ((h[ref]?).getD []) key v)

/-- Outcome of one `requests.post`: a transport-level failure
(`requests.exceptions.RequestException`) or a decoded JSON body. -/
inductive NetResult where
  | transport (msg : String)
  | response (r : ApiResponse)
deriving DecidableEq, Repr

/-- File-handle events of one `verify_receipt` call. -/
inductive FEvent where
  | posted (attempt : Nat) (filesAlreadyClosed : Bool)
  | closed (attempt : Nat)
deriving DecidableEq, Repr

deriving instance DecidableEq for Except

/-- Result state of the retry loop. -/
structure LoopRes where
  outcome : Except PyErr Receipt
  cache : ReceiptCache
  posts : Nat
  events : List FEvent
  sleeps : List ℚ
  filesClosed : Bool
deriving DecidableEq, Repr

/-- The `finally` block of the loop body: close the attachment handles
when a `files` dict was supplied. -/
def finallyClose (hasFiles : Bool) (attempt : Nat) (events : List FEvent)
    (filesClosed : Bool) : List FEvent × Bool :=
  if hasFiles then (events ++ [.closed attempt], true) else (events, filesClosed)

/-- Truthiness of the optional cache key (`if cache_key:`). -/
def strTruthy : Option String → Bool
  | none => false
  | some s => s ≠ ""

/-- The network-error terminal receipt built in the `except` arm. -/
def networkErrorReceipt (now : DateTime6) (msg : String) : Receipt :=
  { code := -1, is_valid := false,
    error_message := some ("Network error: " ++ msg), date_time := some now }

/-- The retry-exhaustion receipt built after the `for` loop. -/
def maxRetriesReceipt (now : DateTime6) : Receipt :=
  { code := -1, is_valid := false,
    error_message := some "Max retries exceeded", date_time := some now }

/-- The body of `for attempt in range(max_retries)` in
`ReceiptVerifier.verify_receipt`, by structural recursion on the number
of remaining attempts (`attempt + remaining = max_retries` at every
call).  Each iteration performs one post, dispatches on the decoded code
exactly as the source does, and runs the `finally` block on every way out
of the body — including before a retry, which is where the source closes
the attachment handles while later attempts still need them. -/
def verifyGo (rh : RetryHandler) (net : Nat → NetResult)
    (cacheKey : Option String) (hasFiles : Bool) (now : DateTime6) :
    Nat → Nat → ReceiptCache → List FEvent → List ℚ → Bool → Nat → LoopRes
  | 0, _, cache, events, sleeps, filesClosed, posts =>
    ⟨.ok (maxRetriesReceipt now), cache, posts, events, sleeps, filesClosed⟩
  | remaining + 1, attempt, cache, events, sleeps, filesClosed, posts =>
    let isLast := remaining = 0
    let events := events ++ [.posted attempt filesClosed]
    let posts := posts + 1
    let fin := finallyClose hasFiles attempt events filesClosed
    match net attempt with
    | .transport msg =>
      if isLast then
        ⟨.ok (networkErrorReceipt now msg), cache, posts, fin.1, sleeps, fin.2⟩
      else
        verifyGo rh net cacheKey hasFiles now remaining (attempt + 1) cache fin.1
          (sleeps ++ [rh.base_delay * 2 ^ attempt]) fin.2 posts
    | .response resp =>
      let code := resp.code.getD (-1)
      if code = 1 then
        match Receipt.from_api_response now resp with
        | .error e => ⟨.error e, cache, posts, fin.1, sleeps, fin.2⟩
        | .ok formed =>
          if strTruthy cacheKey && formed.is_valid then
            match cache.put (cacheKey.getD "") formed with
            | .error e => ⟨.error e, cache, posts, fin.1, sleeps, fin.2⟩
            | .ok cache' => ⟨.ok formed, cache', posts, fin.1, sleeps, fin.2⟩
          else ⟨.ok formed, cache, posts, fin.1, sleeps, fin.2⟩
      else if rh.should_retry code && !isLast then
        verifyGo rh net cacheKey hasFiles now remaining (attempt + 1) cache fin.1
          (sleeps ++ [rh.get_delay code attempt]) fin.2 posts
      else
        match Receipt.from_api_response now resp with
        | .error e => ⟨.error e, cache, posts, fin.1, sleeps, fin.2⟩
        | .ok formedErr => ⟨.ok formedErr, cache, posts, fin.1, sleeps, fin.2⟩

/-- The request argument of `verify_receipt`: a `RequestParams` instance,
or a reference to a caller-owned dict on the heap. -/
inductive ReqInput where
  | paramsReq (p : RequestParams)
  | dictReq (ref : Nat)
deriving DecidableEq, Repr

/-- The cache key computed at the top of `verify_receipt`: the
`RequestParams` fingerprint, or the MD5 of `request_dict['qrraw']`, or
`None`. -/
def requestCacheKey (h : Heap) : ReqInput → Option String
  | .paramsReq p => some p.fingerprint
  | .dictReq i =>
    match alGet ((h[i]?).getD []) "qrraw" with
    | some sraw => some (md5Hex sraw)
    | none => none

/-- The token / `promo_id` / `userdata_<key>` augmentation applied to the
request dict (value level; used to state what ends up in the posted
dict).  `promo_id = 0` is falsy in Python and is not added, and an empty
`userdata` dict is falsy likewise. -/
def augmentDict (d : List (String × String)) (token : String)
    (promo_id : Option Int) (userdata : List (String × String)) :
    List (String × String) :=
  let d1 := alSet d "token" token
  let d2 := match promo_id with
    | some p => if p ≠ 0 then alSet d1 "promo_id" (toString p) else d1
    | none => d1
  if userdata = [] then d2
  else userdata.foldl (fun dd kv => alSet dd ("userdata_" ++ kv.1) kv.2) d2

/-- Full result of one `verify_receipt` call. -/
structure VerifyOut where
  outcome : Except PyErr Receipt
  cache : ReceiptCache
  posts : Nat
  events : List FEvent
  sleeps : List ℚ
  heap : Heap
  reqRef : Nat
  cacheKey : Option String
deriving Repr

/-- Model of `ReceiptVerifier.verify_receipt`.  `token` is the verifier's
token, `rh` its retry handler, `cache` its cache; `req` the request
argument, `heap` the dict heap, `hasFiles` the truthiness of the `files`
argument, `net` the network oracle and `now` the wall clock.  The
request dict is materialised at a fresh heap reference (`to_dict()` for
`RequestParams`, `.copy()` for a caller dict), the cache is consulted
before any network traffic, the token / promo / userdata augmentation
mutates only the fresh dict, and the retry loop then runs. -/
def verify_receipt (token : String) (rh : RetryHandler) (cache : ReceiptCache)
    (req : ReqInput) (heap : Heap) (hasFiles : Bool) (promo_id : Option Int)
    (userdata : List (String × String)) (net : Nat → NetResult)
    (now : DateTime6) : VerifyOut :=
  let baseDict : List (String × String) :=
    match req with
    | .paramsReq p => p.to_dict
    | .dictReq i => (heap[i]?).getD []
  let cacheKey := requestCacheKey heap req
  let heap1 : Heap := heap ++ [baseDict]
  let ref := heap.length
  let checked :=
    if strTruthy cacheKey then cache.get (cacheKey.getD "") else (none, cache)
  match checked with
  | (some cached, cache1) =>
    ⟨.ok cached, cache1, 0, [], [], heap1, ref, cacheKey⟩
  | (none, cache1) =>
    let heap2 := heapWrite heap1 ref "token" token
    let heap3 := match promo_id with
      | some p => if p ≠ 0 then heapWrite heap2 ref "promo_id" (toString p) else heap2
      | none => heap2
    let heap4 := if userdata = [] then heap3
      else userdata.foldl
        (fun hh kv => heapWrite hh ref ("userdata_" ++ kv.1) kv.2) heap3
    let lr := verifyGo rh net cacheKey hasFiles now rh.max_retries 0 cache1 [] [] false 0
    ⟨lr.outcome, lr.cache, lr.posts, lr.events, lr.sleeps, heap4, ref, cacheKey⟩

/-! ### Concrete fixtures used by counterexamples, witnesses and the
code-evaluation theorems. -/

/-- A minimal valid receipt. -/
def sampleA : Receipt := { code := 1, is_valid := true }

/-- Another valid receipt, distinguishable from `sampleA`. -/
def sampleB : Receipt := { code := 1, is_valid := true, total_sum := 1 }

/-- A receipt with `is_valid = false`, as the error branch of
`Receipt.from_api_response` builds for code 0. -/
def invalidReceipt : Receipt :=
  { code := 0, is_valid := false, error_message := some "Invalid receipt" }

/-- A fixed wall-clock instant standing for `datetime.now()`. -/
def now0 : DateTime6 := ⟨2024, 1, 1, 0, 0, 0⟩

/-- The manual request of the QR example documented in
`RequestBuilder.from_qr_string`. -/
def manualReq : RequestParams :=
  ⟨"9282440300682838", "46534", "1273019065", "20200924T1837", "1", "349.93", "0"⟩

/-- The raw QR payload carrying exactly the fiscal fields of `manualReq`. -/
def rawQrEquivalent : String :=
  qrPayload "9282440300682838" "46534" "1273019065" "20200924T1837" "1" "349.93"

/-- A retry handler with the default `max_retries = 3`, `base_delay = 1.0`. -/
def rh3 : RetryHandler := ⟨3, 1⟩

/-- An empty cache with the default capacity. -/
def emptyCache1000 : ReceiptCache := ⟨[], 1000, 0, 0⟩

/-- A decoded response body `{"code": 2}`. -/
def code2Resp : ApiResponse := { code := some 2 }

/-- A decoded response body `{"code": 3}`. -/
def code3Resp : ApiResponse := { code := some 3 }

/-- The receipt `Receipt.from_api_response` builds for a code-2 body. -/
def code2Receipt : Receipt :=
  { code := 2, is_valid := false, date_time := some now0,
    error_message := some "Receipt data not yet available" }

/-- The receipt `Receipt.from_api_response` builds for a code-3 body. -/
def code3Receipt : Receipt :=
  { code := 3, is_valid := false, date_time := some now0,
    error_message := some "Request limit exceeded" }

/-- A `code == 1` response with no `dateTime` key in the payload. -/
def missingTimestampResp : ApiResponse :=
  { code := some 1, data := some { json := some { totalSum := some 100000 } } }

/-- A `code == 1` response whose `dateTime` does not match the fixed
format `%Y-%m-%dT%H:%M:%S`. -/
def badTimestampResp : ApiResponse :=
  { code := some 1,
    data := some { json := some { dateTime := some "24.09.2020 18:37",
                                  totalSum := some 100000 } } }

/-- A network oracle that fails at the transport level on every attempt. -/
def transportNet : Nat → NetResult := fun _ => .transport "connection refused"

/-- The run behind claim C2: a `max_retries = 3` verifier receiving a
retryable code-2 body on every attempt (dict request without `qrraw`, so
no cache key). -/
def c2Run : VerifyOut := verify_receipt "tk" rh3 emptyCache1000 (.dictReq 0)
  [[]] false none [] (fun _ => .response code2Resp) now0

/-- The run behind claim C8: a QR-file request (`files` supplied, empty
data dict as `RequestBuilder.from_qr_file` builds it) receiving a
retryable code-3 body on every attempt. -/
def c8Run : VerifyOut := verify_receipt "tk" rh3 emptyCache1000 (.dictReq 0)
  [[]] true none [] (fun _ => .response code3Resp) now0

/-- A cache holding one valid receipt under an opaque key. -/
def c5WitnessCache : ReceiptCache := ⟨[("k", sampleA)], 1000, 0, 0⟩

/-- A cache already holding a receipt under `manualReq`'s fingerprint. -/
def hitCache : ReceiptCache := ⟨[(manualReq.fingerprint, sampleA)], 1000, 0, 0⟩

/-- A heap with one caller-owned dict. -/
def c9Heap : Heap := [[("a", "b")]]

/-! ### Helper lemmas about association lists, the cache, and the heap. -/

lemma alGet_cons_none {κ α : Type} [DecidableEq κ] (k k' : κ) (v : α)
    (t : List (κ × α)) (h : alGet ((k', v) :: t) k = none) :
    k' ≠ k ∧ alGet t k = none := by
  by_cases hk : k' = k
  · simp [alGet, hk] at h
  · simpa [alGet, hk] using h

lemma alSet_append_of_none {κ α : Type} [DecidableEq κ] {l : List (κ × α)}
    {k : κ} (v : α) (h : alGet l k = none) : alSet l k v = l ++ [(k, v)] := by
  induction l with
  | nil => rfl
  | cons hd tl ih =>
    obtain ⟨hne, htl⟩ := alGet_cons_none k hd.1 hd.2 tl (by simpa using h)
    simp [alSet, hne, ih htl]

lemma alSet_length_le {κ α : Type} [DecidableEq κ] (l : List (κ × α)) (k : κ)
    (v : α) : (alSet l k v).length ≤ l.length + 1 := by
  induction l with
  | nil => simp [alSet]
  | cons hd tl ih =>
    by_cases hk : hd.1 = k
    · simp [alSet, hk]
    · simp only [alSet, hk, if_false, List.length_cons]
      omega

lemma mem_alSet {κ α : Type} [DecidableEq κ] {l : List (κ × α)} {k : κ}
    {v : α} {x : κ × α} (hx : x ∈ alSet l k v) : x = (k, v) ∨ x ∈ l := by
  induction l with
  | nil => simpa [alSet] using hx
  | cons hd tl ih =>
    by_cases hk : hd.1 = k
    · rcases (by simpa [alSet, hk] using hx : x = (k, v) ∨ x ∈ tl) with h | h
      · exact Or.inl h
      · exact Or.inr (List.mem_cons_of_mem _ h)
    · rcases (by simpa [alSet, hk] using hx : x = hd ∨ x ∈ alSet tl k v) with h | h
      · exact Or.inr (h ▸ List.mem_cons_self hd tl)
      · rcases ih h with h' | h'
        · exact Or.inl h'
        · exact Or.inr (List.mem_cons_of_mem _ h')

lemma get_cache_unchanged (c : ReceiptCache) (k : String) :
    ((c.get k).2).cache = c.cache := by
  unfold ReceiptCache.get
  cases alGet c.cache k <;> rfl

lemma put_all_valid {c c' : ReceiptCache} {k : String} {r : Receipt}
    (hc : ∀ kv ∈ c.cache, kv.2.is_valid = true) (hr : r.is_valid = true)
    (h : c.put k r = .ok c') : ∀ kv ∈ c'.cache, kv.2.is_valid = true := by
  by_cases hlen : c.cache.length ≥ c.max_size
  · rw [ReceiptCache.put, if_pos hlen] at h
    cases hcc : c.cache with
    | nil => rw [hcc] at h; simp at h
    | cons hd tl =>
      rw [hcc] at h
      simp only [Except.ok.injEq] at h
      intro kv hkv
      rw [← h] at hkv
      simp only at hkv
      rcases mem_alSet hkv with h' | h'
      · rw [h']; exact hr
      · exact hc kv (hcc ▸ List.mem_cons_of_mem _ h')
  · rw [ReceiptCache.put, if_neg hlen] at h
    simp only [Except.ok.injEq] at h
    intro kv hkv
    rw [← h] at hkv
    simp only at hkv
    rcases mem_alSet hkv with h' | h'
    · rw [h']; exact hr
    · exact hc kv h'

lemma verifyGo_all_valid (rh : RetryHandler) (net : Nat → NetResult)
    (ck : Option String) (hf : Bool) (now : DateTime6) :
    ∀ (remaining attempt : Nat) (cache : ReceiptCache) (events : List FEvent)
      (sleeps : List ℚ) (fc : Bool) (posts : Nat),
      (∀ kv ∈ cache.cache, kv.2.is_valid = true) →
      ∀ kv ∈ (verifyGo rh net ck hf now remaining attempt cache events sleeps
        fc posts).cache.cache, kv.2.is_valid = true := by
  intro remaining
  induction remaining with
  | zero => intro attempt cache events sleeps fc posts hc; simpa [verifyGo] using hc
  | succ n ih =>
    intro attempt cache events sleeps fc posts hc
    rw [verifyGo]
    cases hnet : net attempt with
    | transport msg =>
      simp only []
      split
      · exact hc
      · exact ih _ _ _ _ _ _ hc
    | response resp =>
      simp only []
      split
      · cases hfa : Receipt.from_api_response now resp with
        | error e => simp only [hfa]; exact hc
        | ok formed =>
          simp only [hfa]
          split
          · cases hput : cache.put (ck.getD "") formed with
            | error e => simp only [hput]; exact hc
            | ok cache' =>
              simp only [hput]
              have hv : formed.is_valid = true := by
                rename_i hcond
                exact (Bool.and_eq_true _ _ |>.mp hcond).2
              exact put_all_valid hc hv hput
          · exact hc
      · split
        · exact ih _ _ _ _ _ _ hc
        · cases hfa : Receipt.from_api_response now resp with
          | error e => simp only [hfa]; exact hc
          | ok formedErr => simp only [hfa]; exact hc

lemma heapWrite_get_ne {h : Heap} {ref j : Nat} (k v : String) (hne : ref ≠ j) :
    (heapWrite h ref k v)[j]? = h[j]? := List.getElem?_set_ne hne

lemma heapWrite_get_self {h : Heap} {ref : Nat} (k v : String)
    (href : ref < h.length) :
    (heapWrite h ref k v)[ref]? = some (alSet ((h[ref]?).getD []) k v) :=
  List.getElem?_set_eq_of_lt _ href

lemma heapWrite_length (h : Heap) (ref : Nat) (k v : String) :
    (heapWrite h ref k v).length = h.length := List.length_set h ref _

lemma udFold_get_ne (ref j : Nat) (hne : ref ≠ j) :
    ∀ (ud : List (String × String)) (h : Heap),
      (ud.foldl (fun hh kv => heapWrite hh ref ("userdata_" ++ kv.1) kv.2)
        h)[j]? = h[j]? := by
  intro ud
  induction ud with
  | nil => intro h; rfl
  | cons kv tl ih =>
    intro h
    simpa [List.foldl_cons] using (ih (heapWrite h ref ("userdata_" ++ kv.1) kv.2)).trans
      (heapWrite_get_ne _ _ hne)

lemma udFold_length (ref : Nat) :
    ∀ (ud : List (String × String)) (h : Heap),
      (ud.foldl (fun hh kv => heapWrite hh ref ("userdata_" ++ kv.1) kv.2)
        h).length = h.length := by
  intro ud
  induction ud with
  | nil => intro h; rfl
  | cons kv tl ih =>
    intro h
    simpa [List.foldl_cons, heapWrite_length] using
      ih (heapWrite h ref ("userdata_" ++ kv.1) kv.2)

lemma udFold_get_self (ref : Nat) :
    ∀ (ud : List (String × String)) (h : Heap), ref < h.length →
      (ud.foldl (fun hh kv => heapWrite hh ref ("userdata_" ++ kv.1) kv.2)
        h)[ref]? =
      some (ud.foldl (fun dd kv => alSet dd ("userdata_" ++ kv.1) kv.2)
        ((h[ref]?).getD [])) := by
  intro ud
  induction ud with
  | nil =>
    intro h href
    rw [List.getElem?_eq_getElem href]
    simp
  | cons kv tl ih =>
    intro h href
    have h1 := ih (heapWrite h ref ("userdata_" ++ kv.1) kv.2)
      (by rw [heapWrite_length]; exact href)
    rw [List.foldl_cons, h1, heapWrite_get_self _ _ href]
    simp

lemma promo_heap_get_ne {h : Heap} {ref j : Nat} (promo : Option Int)
    (hne : ref ≠ j) :
    (match promo with
     | some p => if p ≠ 0 then heapWrite h ref "promo_id" (toString p) else h
     | none => h)[j]? = h[j]? := by
  cases promo with
  | none => rfl
  | some p =>
    show (if p ≠ 0 then heapWrite h ref "promo_id" (toString p) else h)[j]? = h[j]?
    by_cases hp : p ≠ 0
    · rw [if_pos hp]
      exact heapWrite_get_ne _ _ hne
    · rw [if_neg hp]

lemma promo_heap_length {h : Heap} {ref : Nat} (promo : Option Int) :
    (match promo with
     | some p => if p ≠ 0 then heapWrite h ref "promo_id" (toString p) else h
     | none => h).length = h.length := by
  cases promo with
  | none => rfl
  | some p =>
    show (if p ≠ 0 then heapWrite h ref "promo_id" (toString p) else h).length = h.length
    by_cases hp : p ≠ 0
    · rw [if_pos hp]
      exact heapWrite_length _ _ _ _
    · rw [if_neg hp]

lemma promo_heap_get_self {h : Heap} {ref : Nat} (promo : Option Int)
    (href : ref < h.length) (cur : List (String × String))
    (hcur : h[ref]? = some cur) :
    (match promo with
     | some p => if p ≠ 0 then heapWrite h ref "promo_id" (toString p) else h
     | none => h)[ref]? =
    some (match promo with
     | some p => if p ≠ 0 then alSet cur "promo_id" (toString p) else cur
     | none => cur) := by
  cases promo with
  | none => exact hcur
  | some p =>
    show (if p ≠ 0 then heapWrite h ref "promo_id" (toString p) else h)[ref]? =
      some (if p ≠ 0 then alSet cur "promo_id" (toString p) else cur)
    by_cases hp : p ≠ 0
    · rw [if_pos hp, if_pos hp, heapWrite_get_self _ _ href, hcur]
      rfl
    · rw [if_neg hp, if_neg hp]
      exact hcur

/-! ### Claim theorems. -/

set_option maxRecDepth 20000 in
/-- C1 counterexample: a `Manual` request and a `RawQr` request carrying
the identical `(fn, fd, fp, t) = ("9282440300682838", "46534",
"1273019065", "20200924T1837")` receive different cache fingerprints from
`verify_receipt`: the manual key hashes `fn_fd_fp_t` while the raw-QR key
hashes the whole payload string. -/
theorem fingerprint_variant_counterexample :
    requestCacheKey [[("qrraw", rawQrEquivalent)]] (.dictReq 0) ≠
      requestCacheKey [] (.paramsReq manualReq) := by
  decide

/-- C1 (amended): within the `Manual` variant the fingerprint depends
only on `(fn, fd, fp, t)`: any two `RequestParams` agreeing on those four
fields (whatever their `n`, `s`, `qr`) get the same fingerprint.  Across
variants the invariant fails (`fingerprint_variant_counterexample`). -/
theorem fingerprint_determined_by_fiscal_fields (p q : RequestParams)
    (hfn : p.fn = q.fn) (hfd : p.fd = q.fd) (hfp : p.fp = q.fp)
    (ht : p.t = q.t) : p.fingerprint = q.fingerprint := by
  unfold RequestParams.fingerprint
  rw [hfn, hfd, hfp, ht]

/-- Witness for C1's amended theorem at concrete inputs differing in
`n`, `s` and `qr`. -/
theorem fingerprint_determined_by_fiscal_fields_witness :
    RequestParams.fingerprint ⟨"1", "2", "3", "4", "1", "10.00", "0"⟩ =
      RequestParams.fingerprint ⟨"1", "2", "3", "4", "2", "20.00", "1"⟩ :=
  fingerprint_determined_by_fiscal_fields _ _ rfl rfl rfl rfl

set_option maxRecDepth 4000 in
/-- C2: when every one of the three attempts yields a retryable code-2
body, `verify_receipt` performs all three posts and returns the receipt
parsed from the LAST retryable response (canned message "Receipt data
not yet available"), not the dead retry-exhaustion receipt ("Max retries
exceeded") built after the loop — the code contradicts the claim. -/
theorem retry_exhaustion_returns_last_response :
    c2Run.posts = 3 ∧
    c2Run.outcome = .ok code2Receipt ∧
    c2Run.outcome ≠ .ok (maxRetriesReceipt now0) := by
  decide

/-- C3: a `code == 1` response whose `dateTime` is absent, and one whose
`dateTime` does not match `%Y-%m-%dT%H:%M:%S`, both make
`Receipt.from_api_response` raise `AttributeError` (the source computes
`date_time = None` and then evaluates `None.strftime('%H:%M:%S')`),
instead of returning a receipt with a null timestamp. -/
theorem from_api_response_crashes_on_missing_timestamp :
    Receipt.from_api_response now0 missingTimestampResp = .error .attributeError ∧
    Receipt.from_api_response now0 badTimestampResp = .error .attributeError := by
  decide

/-- C4 counterexample: in a capacity-1 cache, insert `"a"`, read `"a"`
back via `get` (a hit — `"a"` is the entry most recently read), then
insert `"b"`: the eviction removes exactly `"a"`, the entry most recently
read via `get`. -/
theorem eviction_removes_recently_read_counterexample :
    ReceiptCache.put ⟨[], 1, 0, 0⟩ "a" sampleA = .ok ⟨[("a", sampleA)], 1, 0, 0⟩ ∧
    ReceiptCache.get ⟨[("a", sampleA)], 1, 0, 0⟩ "a" =
      (some sampleA, ⟨[("a", sampleA)], 1, 1, 0⟩) ∧
    ReceiptCache.put ⟨[("a", sampleA)], 1, 1, 0⟩ "b" sampleB =
      .ok ⟨[("b", sampleB)], 1, 1, 0⟩ ∧
    alGet [("b", sampleB)] "a" = (none : Option Receipt) := by
  decide

/-- C4 (amended): inserting a fresh key into a cache at capacity evicts
exactly the first-inserted entry (the result is the old map minus its
head, with the new pair appended), and `get` never changes the stored
map or its order — so eviction is insensitive to reads and may well
remove the entry most recently read when that entry is the oldest. -/
theorem eviction_is_fifo_and_get_does_not_reorder (c : ReceiptCache)
    (k k' : String) (r : Receipt) (hcap : c.cache.length = c.max_size)
    (hne : c.cache ≠ []) (hfresh : alGet c.cache k = none) :
    c.put k r = .ok { c with cache := c.cache.tail ++ [(k, r)] } ∧
    ((c.get k').2).cache = c.cache := by
  refine ⟨?_, get_cache_unchanged c k'⟩
  unfold ReceiptCache.put
  rw [if_pos (le_of_eq hcap.symm)]
  cases hcc : c.cache with
  | nil => exact absurd hcc hne
  | cons hd tl =>
    obtain ⟨-, htl⟩ := alGet_cons_none k hd.1 hd.2 tl
      (by rw [hcc] at hfresh; simpa using hfresh)
    simp [alSet_append_of_none r htl]

/-- Witness for C4's amended theorem: capacity-1 cache holding `"a"`,
inserting `"b"` evicts `"a"`; `get "a"` leaves the map untouched. -/
theorem eviction_is_fifo_witness :
    ReceiptCache.put ⟨[("a", sampleA)], 1, 0, 0⟩ "b" sampleB =
      .ok ⟨[("b", sampleB)], 1, 0, 0⟩ ∧
    ((ReceiptCache.get ⟨[("a", sampleA)], 1, 0, 0⟩ "a").2).cache =
      [("a", sampleA)] :=
  eviction_is_fifo_and_get_does_not_reorder ⟨[("a", sampleA)], 1, 0, 0⟩
    "b" "a" sampleB (by decide) (by decide) (by decide)

/-- C5 counterexample: `ReceiptCache.put` performs no validity check — it
happily stores a receipt with `is_valid = false`. -/
theorem put_accepts_invalid_counterexample :
    ReceiptCache.put ⟨[], 1000, 0, 0⟩ "k" invalidReceipt =
      .ok ⟨[("k", invalidReceipt)], 1000, 0, 0⟩ ∧
    invalidReceipt.is_valid = false := by
  decide

/-- C5 (amended): the invalid-receipt guard lives at the call site in
`verify_receipt` (`if cache_key and formed_receipt.is_valid`), not in
`put`; consequently a `verify_receipt` call never inserts an invalid
receipt: if every cached receipt is valid before the call, every cached
receipt is valid after it. -/
theorem verify_preserves_cache_validity (token : String) (rh : RetryHandler)
    (cache : ReceiptCache) (req : ReqInput) (heap : Heap) (hasFiles : Bool)
    (promo_id : Option Int) (userdata : List (String × String))
    (net : Nat → NetResult) (now : DateTime6)
    (hc : ∀ kv ∈ cache.cache, kv.2.is_valid = true) :
    ∀ kv ∈ (verify_receipt token rh cache req heap hasFiles promo_id userdata
      net now).cache.cache, kv.2.is_valid = true := by
  rw [verify_receipt.eq_def]
  simp only []
  cases hT : strTruthy (requestCacheKey heap req) with
  | false =>
    simp only [hT, Bool.false_eq_true, if_false]
    exact verifyGo_all_valid rh net _ hasFiles now _ 0 cache [] [] false 0 hc
  | true =>
    simp only [hT, if_true]
    rw [ReceiptCache.get]
    cases halg : alGet cache.cache ((requestCacheKey heap req).getD "") with
    | some r => simp only [halg]; exact hc
    | none =>
      simp only [halg]
      exact verifyGo_all_valid rh net _ hasFiles now _ 0 _ [] [] false 0 hc

set_option maxRecDepth 4000 in
/-- Witness for C5's amended theorem: a run over a cache holding the
valid `sampleA` (three transport failures) still holds only valid
receipts afterwards; instantiated at the stored entry. -/
theorem verify_preserves_cache_validity_witness : sampleA.is_valid = true :=
  verify_preserves_cache_validity "tk" rh3 c5WitnessCache (.dictReq 0) [[]]
    false none [] transportNet now0 (by decide) ("k", sampleA) (by decide)

/-- C6: `RetryHandler.get_delay` returns `base * 2 ^ attempt` for code 3,
the constant `2 * base` for code 4, and `base * 1.5 ^ attempt` for
code 2; in particular `base` / `2 * base` at attempts 0 / 1 for code 3
and `base` / `1.5 * base` at attempts 0 / 1 for code 2. -/
theorem get_delay_exact (rh : RetryHandler) (attempt : Nat) :
    rh.get_delay 3 attempt = rh.base_delay * 2 ^ attempt ∧
    rh.get_delay 4 attempt = rh.base_delay * 2 ∧
    rh.get_delay 2 attempt = rh.base_delay * (3 / 2 : ℚ) ^ attempt ∧
    rh.get_delay 3 0 = rh.base_delay ∧
    rh.get_delay 3 1 = 2 * rh.base_delay ∧
    rh.get_delay 2 0 = rh.base_delay ∧
    rh.get_delay 2 1 = (3 / 2 : ℚ) * rh.base_delay := by
  refine ⟨?_, ?_, ?_, ?_, ?_, ?_, ?_⟩ <;> norm_num [RetryHandler.get_delay] <;> ring

/-- C7: when the computed cache key is present (and truthy) and the cache
holds a receipt under it, `verify_receipt` returns that receipt with zero
network posts and no file-handle activity. -/
theorem cache_hit_short_circuit (token : String) (rh : RetryHandler)
    (cache : ReceiptCache) (req : ReqInput) (heap : Heap) (hasFiles : Bool)
    (promo_id : Option Int) (userdata : List (String × String))
    (net : Nat → NetResult) (now : DateTime6) (k : String) (r : Receipt)
    (hk : requestCacheKey heap req = some k) (hk2 : k ≠ "")
    (hr : alGet cache.cache k = some r) :
    (verify_receipt token rh cache req heap hasFiles promo_id userdata net
      now).outcome = .ok r ∧
    (verify_receipt token rh cache req heap hasFiles promo_id userdata net
      now).posts = 0 ∧
    (verify_receipt token rh cache req heap hasFiles promo_id userdata net
      now).events = [] := by
  have hT : strTruthy (some k) = true := by simpa [strTruthy] using hk2
  rw [verify_receipt.eq_def]
  simp only [hk, Option.getD_some, ReceiptCache.get, hr, hT, if_true]
  exact ⟨trivial, trivial, trivial⟩

set_option maxRecDepth 20000 in
/-- Witness for C7: a second verification of `manualReq` against a cache
already holding its fingerprint returns the cached receipt and performs
zero posts, even though the network would fail. -/
theorem cache_hit_short_circuit_witness :
    (verify_receipt "tk" rh3 hitCache (.paramsReq manualReq) [] false none []
      transportNet now0).outcome = .ok sampleA ∧
    (verify_receipt "tk" rh3 hitCache (.paramsReq manualReq) [] false none []
      transportNet now0).posts = 0 ∧
    (verify_receipt "tk" rh3 hitCache (.paramsReq manualReq) [] false none []
      transportNet now0).events = [] :=
  cache_hit_short_circuit "tk" rh3 hitCache (.paramsReq manualReq) [] false
    none [] transportNet now0 manualReq.fingerprint sampleA rfl (by decide)
    (by decide)

set_option maxRecDepth 4000 in
/-- C8: with a QR-file attachment and a retryable code-3 body on every
attempt, the `finally` block closes the handles at the end of EVERY loop
iteration: the trace shows three `closed` events (not exactly one), and
the posts of attempts 1 and 2 — which still need the attachment — happen
with the handles already closed. -/
theorem file_handles_closed_every_attempt :
    c8Run.events = [.posted 0 false, .closed 0, .posted 1 true, .closed 1,
      .posted 2 true, .closed 2] ∧
    (c8Run.events.filter (fun e => match e with
      | .closed _ => true | _ => false)).length = 3 ∧
    c8Run.outcome = .ok code3Receipt := by
  decide

/-- C9: `verify_receipt` never mutates the caller's request dict: every
heap index the caller could hold is untouched by the call (first
conjunct, any request variant and any path), while the token / promo /
userdata augmentation lands on the fresh copy allocated at `reqRef`
(second conjunct, for a dict request without `qrraw`). -/
theorem request_dict_not_mutated (token : String) (rh : RetryHandler)
    (cache : ReceiptCache) (req : ReqInput) (heap : Heap) (hasFiles : Bool)
    (promo_id : Option Int) (userdata : List (String × String))
    (net : Nat → NetResult) (now : DateTime6) (i j : Nat)
    (d : List (String × String)) (hj : j < heap.length)
    (hd : heap[i]? = some d) (hqr : alGet d "qrraw" = none) :
    (verify_receipt token rh cache req heap hasFiles promo_id userdata net
      now).heap[j]? = heap[j]? ∧
    (verify_receipt token rh cache (.dictReq i) heap hasFiles promo_id userdata
      net now).heap[(verify_receipt token rh cache (.dictReq i) heap hasFiles
      promo_id userdata net now).reqRef]? =
      some (augmentDict d token promo_id userdata) := by
  have hjne : heap.length ≠ j := by omega
  constructor
  · rw [verify_receipt.eq_def]
    have happ : ∀ bd : List (String × String), (heap ++ [bd])[j]? = heap[j]? :=
      fun bd => List.getElem?_append_left hj
    have hfour : ∀ bd : List (String × String),
        (if userdata = [] then
          (match promo_id with
           | some p => if p ≠ 0 then
               heapWrite (heapWrite (heap ++ [bd]) heap.length "token" token)
                 heap.length "promo_id" (toString p)
             else heapWrite (heap ++ [bd]) heap.length "token" token
           | none => heapWrite (heap ++ [bd]) heap.length "token" token)
         else userdata.foldl
           (fun hh kv => heapWrite hh heap.length ("userdata_" ++ kv.1) kv.2)
           (match promo_id with
            | some p => if p ≠ 0 then
                heapWrite (heapWrite (heap ++ [bd]) heap.length "token" token)
                  heap.length "promo_id" (toString p)
              else heapWrite (heap ++ [bd]) heap.length "token" token
            | none => heapWrite (heap ++ [bd]) heap.length "token" token))[j]? =
        heap[j]? := by
      intro bd
      by_cases hu : userdata = []
      · simp only [hu, if_true]
        rw [promo_heap_get_ne _ hjne, heapWrite_get_ne _ _ hjne, happ]
      · simp only [hu, if_false]
        rw [udFold_get_ne _ _ hjne, promo_heap_get_ne _ hjne,
          heapWrite_get_ne _ _ hjne, happ]
    cases hT : strTruthy (requestCacheKey heap req) with
    | true =>
      simp only [hT, if_true, ReceiptCache.get]
      cases halg : alGet cache.cache ((requestCacheKey heap req).getD "") with
      | some r => simp only [halg]; exact happ _
      | none => simp only [halg]; exact hfour _
    | false =>
      simp only [hT, Bool.false_eq_true, if_false]
      exact hfour _
  · have hck : requestCacheKey heap (.dictReq i) = none := by
      simp [requestCacheKey, hd, hqr]
    rw [verify_receipt.eq_def]
    simp only [hck, strTruthy, Bool.false_eq_true, if_false, hd, Option.getD_some]
    have href1 : heap.length < (heap ++ [d]).length := by simp
    have h1 : (heap ++ [d])[heap.length]? = some d :=
      List.getElem?_concat_length heap d
    have h2 : (heapWrite (heap ++ [d]) heap.length "token" token)[heap.length]? =
        some (alSet d "token" token) := by
      rw [heapWrite_get_self _ _ href1, h1]
      rfl
    have href2 : heap.length <
        (heapWrite (heap ++ [d]) heap.length "token" token).length := by
      rw [heapWrite_length]; exact href1
    have h3 := promo_heap_get_self promo_id href2 (alSet d "token" token) h2
    by_cases hu : userdata = []
    · simp only [hu, if_true, augmentDict]
      exact h3
    · simp only [hu, if_false, augmentDict]
      have hlen3 : heap.length <
          (match promo_id with
           | some p => if p ≠ 0 then
               heapWrite (heapWrite (heap ++ [d]) heap.length "token" token)
                 heap.length "promo_id" (toString p)
             else heapWrite (heap ++ [d]) heap.length "token" token
           | none => heapWrite (heap ++ [d]) heap.length "token" token).length := by
        rw [promo_heap_length]; exact href2
      rw [udFold_get_self _ _ _ hlen3, h3]
      rfl

/-- Witness for C9: a caller dict `{"a": "b"}` at heap index 0, with a
promo id and one userdata pair: after the call the caller's dict is
unchanged and the fresh copy carries the augmentation. -/
theorem request_dict_not_mutated_witness :
    (verify_receipt "tk" rh3 emptyCache1000 (.dictReq 0) c9Heap false (some 5)
      [("x", "y")] transportNet now0).heap[0]? = c9Heap[0]? ∧
    (verify_receipt "tk" rh3 emptyCache1000 (.dictReq 0) c9Heap false (some 5)
      [("x", "y")] transportNet now0).heap[(verify_receipt "tk" rh3
      emptyCache1000 (.dictReq 0) c9Heap false (some 5) [("x", "y")]
      transportNet now0).reqRef]? =
      some (augmentDict [("a", "b")] "tk" (some 5) [("x", "y")]) :=
  request_dict_not_mutated "tk" rh3 emptyCache1000 (.dictReq 0) c9Heap false
    (some 5) [("x", "y")] transportNet now0 0 0 [("a", "b")] (by decide)
    (by decide) (by decide)

/-- C10: on any reachable cache (positive capacity, size within it),
`put` succeeds, the result stays within capacity, and whenever the map is
at capacity the earliest-inserted entry is deleted before the insertion —
also when the inserted key is already present. -/
theorem put_bounded_and_evicts_head (c : ReceiptCache) (k : String)
    (r : Receipt) (hpos : 0 < c.max_size) (hle : c.cache.length ≤ c.max_size) :
    ∃ c', c.put k r = .ok c' ∧ c'.cache.length ≤ c.max_size ∧
      (c.max_size ≤ c.cache.length → c'.cache = alSet c.cache.tail k r) := by
  unfold ReceiptCache.put
  by_cases hge : c.cache.length ≥ c.max_size
  · rw [if_pos hge]
    cases hcc : c.cache with
    | nil => rw [hcc] at hge; simp at hge; omega
    | cons hd tl =>
      refine ⟨_, rfl, ?_, fun _ => by simp [hcc]⟩
      have h1 : (alSet tl k r).length ≤ tl.length + 1 := alSet_length_le tl k r
      have h2 : tl.length + 1 = c.cache.length := by rw [hcc]; simp
      simp only []
      omega
  · rw [if_neg hge]
    refine ⟨_, rfl, ?_, fun hc => absurd hc hge⟩
    have h1 : (alSet c.cache k r).length ≤ c.cache.length + 1 := alSet_length_le _ k r
    simp only []
    omega

/-- Witness for C10 at a capacity-2 cache at capacity, overwriting a key
that is already present: the head entry is still evicted. -/
theorem put_bounded_witness :
    ∃ c', ReceiptCache.put ⟨[("a", sampleA), ("b", sampleB)], 2, 0, 0⟩ "b" sampleA =
        .ok c' ∧ c'.cache.length ≤ 2 ∧
      (2 ≤ ([("a", sampleA), ("b", sampleB)] : List (String × Receipt)).length →
        c'.cache = alSet [("b", sampleB)] "b" sampleA) :=
  put_bounded_and_evicts_head ⟨[("a", sampleA), ("b", sampleB)], 2, 0, 0⟩ "b"
    sampleA (by decide) (by decide)
